import Mathlib

set_option maxHeartbeats 1600000

/-!
Shallow embedding of `src/dashbd.py`, a single-page Streamlit dashboard over a
retail sales CSV.  Calendar dates and timestamps are records of naturals,
money amounts are integers, a loaded dataframe is a list of typed rows, and
the pandas calls the script makes (boolean-mask filtering, `groupby` with
sorted keys, `sum`/`mean`, `corr`, `to_csv`/`read_csv`) are modelled as
functions on those lists.
-/

/-- A calendar date: the value produced by `Series.dt.date`. -/
structure Date where
  y : Nat
  m : Nat
  d : Nat
  deriving DecidableEq, Repr

/-- A time of day (hour, minute, second). -/
structure Time where
  hh : Nat
  mm : Nat
  ss : Nat
  deriving DecidableEq, Repr

/-- A pandas `Timestamp`: a calendar date together with a time of day. -/
structure Timestamp where
  date : Date
  time : Time
  deriving DecidableEq, Repr

/-- The midnight time of day. -/
def Time.midnight : Time := ⟨0, 0, 0⟩

/-- Line 14: `df["Order Date"].dt.to_period("M").dt.to_timestamp()` — the
calendar-month floor of a timestamp, at midnight on the first of the month. -/
def monthFloor (t : Timestamp) : Timestamp :=
  ⟨⟨t.date.y, t.date.m, 1⟩, Time.midnight⟩

/-- One row of the loaded dataframe: the seven source columns of `sales.csv`
plus the derived `Order Month` column added by `load_data` (line 14). -/
structure Row where
  orderDate : Timestamp
  region : String
  category : String
  sales : Int
  profit : Int
  quantity : Nat
  orderId : String
  orderMonth : Timestamp
  deriving DecidableEq, Repr

/-- A loaded dataframe: a list of typed rows. -/
abbrev Table := List Row

/-- Chronological order on calendar dates: year, then month, then day.
This is the comparison performed by `df["Order Date"].dt.date >= ...`. -/
def Date.le (a b : Date) : Prop :=
  a.y < b.y ∨ (a.y = b.y ∧ (a.m < b.m ∨ (a.m = b.m ∧ a.d ≤ b.d)))

instance : DecidableRel Date.le := fun a b => by
  unfold Date.le
  exact inferInstance

/-- Chronological order on timestamps: date first, then time of day. -/
def Timestamp.le (a b : Timestamp) : Prop :=
  a.date.y < b.date.y ∨ (a.date.y = b.date.y ∧
    (a.date.m < b.date.m ∨ (a.date.m = b.date.m ∧
      (a.date.d < b.date.d ∨ (a.date.d = b.date.d ∧
        (a.time.hh < b.time.hh ∨ (a.time.hh = b.time.hh ∧
          (a.time.mm < b.time.mm ∨ (a.time.mm = b.time.mm ∧
            a.time.ss ≤ b.time.ss)))))))))

/-- Strict chronological order on timestamps. -/
def Timestamp.lt (a b : Timestamp) : Prop :=
  Timestamp.le a b ∧ ¬ Timestamp.le b a

instance : DecidableRel Timestamp.le := fun a b => by
  unfold Timestamp.le
  exact inferInstance

instance : DecidableRel Timestamp.lt := fun a b => by
  unfold Timestamp.lt
  exact inferInstance

instance : IsTotal Timestamp Timestamp.le := by
  constructor
  intro a b
  unfold Timestamp.le
  omega

instance : IsTrans Timestamp Timestamp.le := by
  constructor
  intro a b c hab hbc
  unfold Timestamp.le at *
  omega

theorem Timestamp.lt_trichotomy (a b : Timestamp) :
    Timestamp.lt a b ∨ a = b ∨ Timestamp.lt b a := by
  obtain ⟨⟨ay, am, ad⟩, ⟨ah, ai, as⟩⟩ := a
  obtain ⟨⟨by', bm, bd⟩, ⟨bh, bi, bs⟩⟩ := b
  simp only [Timestamp.lt, Timestamp.le, Timestamp.mk.injEq, Date.mk.injEq,
    Time.mk.injEq]
  omega

theorem Timestamp.lt_trans' {a b c : Timestamp}
    (hab : Timestamp.lt a b) (hbc : Timestamp.lt b c) : Timestamp.lt a c := by
  unfold Timestamp.lt Timestamp.le at *
  omega

theorem Timestamp.lt_le_trans {a b c : Timestamp}
    (hab : Timestamp.lt a b) (hbc : Timestamp.le b c) : Timestamp.lt a c := by
  unfold Timestamp.lt Timestamp.le at *
  omega

/-- Lines 31–36: the boolean filter mask.  A row passes when the date
component of its `Order Date` lies in the inclusive window and its `Region`
and `Category` are members of the multiselect allow-lists. -/
def rowMask (ds de : Date) (regions categories : List String) (r : Row) : Bool :=
  decide (Date.le ds r.orderDate.date) && decide (Date.le r.orderDate.date de) &&
    regions.contains r.region && categories.contains r.category

/-- Line 37: `filtered = df[mask]`. -/
def filterTable (df : Table) (ds de : Date) (regions categories : List String) :
    Table :=
  df.filter (rowMask ds de regions categories)

/-- Line 43: `filtered['Sales'].sum()`. -/
def totalSales (t : Table) : Int := (t.map Row.sales).sum

/-- Line 44: `filtered['Profit'].sum()`. -/
def totalProfit (t : Table) : Int := (t.map Row.profit).sum

/-- Line 46: `filtered.shape[0]`, the row count. -/
def orderCount (t : Table) : Nat := t.length

/-- Line 45: `filtered['Sales'].mean()`.  The pandas mean of an empty series
is `NaN`; this is modelled by `none`. -/
def avgSales (t : Table) : Option ℚ :=
  if t.length = 0 then none else some ((totalSales t : ℚ) / (t.length : ℚ))

/-- A sample loaded table used by witnesses: the three-row scenario of the
spec (section 8). -/
def demoRow1 : Row :=
  ⟨⟨⟨2024, 1, 5⟩, Time.midnight⟩, "East", "Chairs", 100, 10, 1, "O1",
    ⟨⟨2024, 1, 1⟩, Time.midnight⟩⟩

def demoRow2 : Row :=
  ⟨⟨⟨2024, 2, 3⟩, Time.midnight⟩, "West", "Tables", 200, 20, 2, "O2",
    ⟨⟨2024, 2, 1⟩, Time.midnight⟩⟩

def demoRow3 : Row :=
  ⟨⟨⟨2024, 2, 10⟩, Time.midnight⟩, "East", "Chairs", 50, 5, 1, "O3",
    ⟨⟨2024, 2, 1⟩, Time.midnight⟩⟩

def demoTable : Table := [demoRow1, demoRow2, demoRow3]

/-- Lexicographic order on `(Region, Category)` keys, as used by
`groupby(["Region","Category"])` (line 76). -/
def strPairLe (p q : String × String) : Prop :=
  p.1 < q.1 ∨ (p.1 = q.1 ∧ p.2 ≤ q.2)

/-- Lexicographic order on `(Order Month, Category)` keys, as used by
`groupby(["Order Month","Category"])` (line 108). -/
def monthCatLe (p q : Timestamp × String) : Prop :=
  Timestamp.lt p.1 q.1 ∨ (p.1 = q.1 ∧ p.2 ≤ q.2)

instance : DecidableRel strPairLe := fun p q => by
  unfold strPairLe
  exact inferInstance

instance : DecidableRel monthCatLe := fun p q => by
  unfold monthCatLe
  exact inferInstance

instance : IsTotal (String × String) strPairLe := by
  constructor
  intro p q
  rcases lt_trichotomy p.1 q.1 with h | h | h
  · exact Or.inl (Or.inl h)
  · rcases le_total p.2 q.2 with h2 | h2
    · exact Or.inl (Or.inr ⟨h, h2⟩)
    · exact Or.inr (Or.inr ⟨h.symm, h2⟩)
  · exact Or.inr (Or.inl h)

instance : IsTrans (String × String) strPairLe := by
  constructor
  intro p q s hpq hqs
  rcases hpq with h | ⟨he, h2⟩
  · rcases hqs with h' | ⟨he', _⟩
    · exact Or.inl (lt_trans h h')
    · exact Or.inl (he' ▸ h)
  · rcases hqs with h' | ⟨he', h2'⟩
    · exact Or.inl (he ▸ h')
    · exact Or.inr ⟨he.trans he', le_trans h2 h2'⟩

instance : IsTotal (Timestamp × String) monthCatLe := by
  constructor
  intro p q
  rcases Timestamp.lt_trichotomy p.1 q.1 with h | h | h
  · exact Or.inl (Or.inl h)
  · rcases le_total p.2 q.2 with h2 | h2
    · exact Or.inl (Or.inr ⟨h, h2⟩)
    · exact Or.inr (Or.inr ⟨h.symm, h2⟩)
  · exact Or.inr (Or.inl h)

instance : IsTrans (Timestamp × String) monthCatLe := by
  constructor
  intro p q s hpq hqs
  rcases hpq with h | ⟨he, h2⟩
  · rcases hqs with h' | ⟨he', _⟩
    · exact Or.inl (Timestamp.lt_trans' h h')
    · exact Or.inl (he' ▸ h)
  · rcases hqs with h' | ⟨he', h2'⟩
    · exact Or.inl (he ▸ h')
    · exact Or.inr ⟨he.trans he', le_trans h2 h2'⟩

/-- The group keys produced by `groupby(...)` with the default `sort=True`:
the distinct key values of the table, in ascending order of the key. -/
def groupKeys {K : Type} [DecidableEq K] (r : K → K → Prop) [DecidableRel r]
    (key : Row → K) (t : Table) : List K :=
  ((t.map key).dedup).insertionSort r

/-- The summed measure of the group of rows whose key equals `k`. -/
def sumBy {K : Type} [DecidableEq K] (key : Row → K) (meas : Row → Int)
    (k : K) (t : Table) : Int :=
  ((t.filter fun row => decide (key row = k)).map meas).sum

/-- The number of rows in the group whose key equals `k`. -/
def countBy {K : Type} [DecidableEq K] (key : Row → K) (k : K) (t : Table) :
    Nat :=
  (t.filter fun row => decide (key row = k)).length

/-- Line 51: `filtered.groupby("Order Month").agg({"Sales":"sum","Profit":"sum"})`. -/
def monthly (t : Table) : List (Timestamp × Int × Int) :=
  (groupKeys Timestamp.le Row.orderMonth t).map fun k =>
    (k, sumBy Row.orderMonth Row.sales k t, sumBy Row.orderMonth Row.profit k t)

/-- Line 66: `filtered.groupby("Region")["Sales"].sum()`. -/
def regionSales (t : Table) : List (String × Int) :=
  (groupKeys (· ≤ ·) Row.region t).map fun k =>
    (k, sumBy Row.region Row.sales k t)

/-- Line 71: `filtered.groupby("Category")["Sales"].sum()`. -/
def catSales (t : Table) : List (String × Int) :=
  (groupKeys (· ≤ ·) Row.category t).map fun k =>
    (k, sumBy Row.category Row.sales k t)

/-- Line 76: `filtered.groupby(["Region","Category"])["Sales"].sum()`. -/
def treemapAgg (t : Table) : List ((String × String) × Int) :=
  (groupKeys strPairLe (fun r => (r.region, r.category)) t).map fun k =>
    (k, sumBy (fun r => (r.region, r.category)) Row.sales k t)

/-- Line 108: `filtered.groupby(["Order Month","Category"])["Sales"].sum()`. -/
def areaAgg (t : Table) : List ((Timestamp × String) × Int) :=
  (groupKeys monthCatLe (fun r => (r.orderMonth, r.category)) t).map fun k =>
    (k, sumBy (fun r => (r.orderMonth, r.category)) Row.sales k t)

/-- Line 112: `filtered.groupby("Order Month")["Sales"].mean()`.  Each group
is nonempty by construction, so the mean is a plain rational here. -/
def aovAgg (t : Table) : List (Timestamp × ℚ) :=
  (groupKeys Timestamp.le Row.orderMonth t).map fun k =>
    (k, (sumBy Row.orderMonth Row.sales k t : ℚ) /
      (countBy Row.orderMonth k t : ℚ))

theorem groupKeys_sorted {K : Type} [DecidableEq K] (r : K → K → Prop)
    [DecidableRel r] [IsTotal K r] [IsTrans K r] (key : Row → K) (t : Table) :
    List.Sorted r (groupKeys r key t) :=
  List.sorted_insertionSort r _

theorem groupKeys_nodup {K : Type} [DecidableEq K] (r : K → K → Prop)
    [DecidableRel r] (key : Row → K) (t : Table) :
    (groupKeys r key t).Nodup :=
  ((List.perm_insertionSort r _).symm.nodup (List.nodup_dedup _))

theorem groupKeys_mem {K : Type} [DecidableEq K] (r : K → K → Prop)
    [DecidableRel r] (key : Row → K) (t : Table) (k : K) :
    k ∈ groupKeys r key t ↔ ∃ row ∈ t, key row = k := by
  simp [groupKeys, List.mem_insertionSort, List.mem_dedup, List.mem_map]

theorem keys_map_fst {K A : Type} (ks : List K) (g : K → A) :
    ((ks.map fun k => (k, g k)).map Prod.fst) = ks := by
  induction ks with
  | nil => rfl
  | cons k ks ih => simp [ih]

/-- Line 99–100: the three-column numeric frame `filtered[["Sales","Profit",
"Quantity"]]`.  It always has three columns, so the dataframe is `empty`
exactly when the filtered table has zero rows. -/
def numFrame (t : Table) : List (Int × Int × Int) :=
  t.map fun r => (r.sales, r.profit, r.quantity)

/-- The value of numeric column `i` in a row (`Sales`, `Profit`, `Quantity`). -/
def colVal (r : Row) : Fin 3 → ℚ :=
  ![(r.sales : ℚ), (r.profit : ℚ), (r.quantity : ℚ)]

/-- Numeric column `i` of the table, as exact rationals. -/
def colOf (t : Table) (i : Fin 3) : List ℚ :=
  t.map fun r => colVal r i

/-- The mean of a list of rationals (division by zero when empty, as in ℚ). -/
def qmean (xs : List ℚ) : ℚ := xs.sum / (xs.length : ℚ)

/-- Sample covariance with the pandas default `ddof = 1`. -/
def qcov (xs ys : List ℚ) : ℚ :=
  ((xs.zip ys).map fun p => (p.1 - qmean xs) * (p.2 - qmean ys)).sum /
    ((xs.length : ℚ) - 1)

/-- Pearson correlation of two columns, as computed by `DataFrame.corr`. -/
noncomputable def pearson (xs ys : List ℚ) : ℝ :=
  ((qcov xs ys : ℚ) : ℝ) /
    (Real.sqrt ((qcov xs xs : ℚ) : ℝ) * Real.sqrt ((qcov ys ys : ℚ) : ℝ))

/-- Line 101: `filtered[num_cols].corr()`, the 3×3 correlation matrix. -/
noncomputable def pearsonMatrix (t : Table) : Fin 3 → Fin 3 → ℝ :=
  fun i j => pearson (colOf t i) (colOf t j)

/-- Lines 100–103: the correlation section runs only under the guard
`if not filtered[num_cols].empty:`; on an empty frame it is skipped. -/
noncomputable def corrSection (t : Table) : Option (Fin 3 → Fin 3 → ℝ) :=
  if (numFrame t).isEmpty then none else some (pearsonMatrix t)

/-- Decimal digits of a natural number, least significant first, with
structural fuel so that the definition reduces in the kernel. -/
def digitsGo : Nat → Nat → List Nat
  | 0, _ => []
  | _ + 1, 0 => []
  | f + 1, n + 1 => ((n + 1) % 10) :: digitsGo f ((n + 1) / 10)

/-- Decimal digits of `n`, least significant first (`[]` for `0`). -/
def natDigits (n : Nat) : List Nat := digitsGo n n

/-- The character for a decimal digit. -/
def digitChar : Nat → Char
  | 0 => '0' | 1 => '1' | 2 => '2' | 3 => '3' | 4 => '4'
  | 5 => '5' | 6 => '6' | 7 => '7' | 8 => '8' | 9 => '9'
  | _ => '*'

/-- The decimal digit denoted by a character, when there is one. -/
def charDigit? (c : Char) : Option Nat :=
  if c = '0' then some 0 else if c = '1' then some 1
  else if c = '2' then some 2 else if c = '3' then some 3
  else if c = '4' then some 4 else if c = '5' then some 5
  else if c = '6' then some 6 else if c = '7' then some 7
  else if c = '8' then some 8 else if c = '9' then some 9 else none

/-- The digit values of a character list, when all characters are digits. -/
def charsDigits? : List Char → Option (List Nat)
  | [] => some []
  | c :: cs => (charDigit? c).bind fun d =>
      (charsDigits? cs).map fun ds => d :: ds

/-- Parse a nonempty all-digit character list as a natural number. -/
def parseNatChars? (cs : List Char) : Option Nat :=
  if cs.isEmpty then none
  else (charsDigits? cs).map fun ds => Nat.ofDigits 10 ds.reverse

/-- Decimal rendering of a natural number. -/
def renderNat (n : Nat) : String :=
  if n = 0 then "0" else ⟨(natDigits n).reverse.map digitChar⟩

def parseNat? (s : String) : Option Nat := parseNatChars? s.data

/-- Decimal rendering of an integer (pandas `int64` CSV output). -/
def renderInt (i : Int) : String :=
  if i < 0 then "-" ++ renderNat i.natAbs else renderNat i.natAbs

/-- Parse an optionally sign-led all-digit character list as an integer
(pandas dtype inference for an integer column). -/
def parseIntChars? (cs : List Char) : Option Int :=
  match cs with
  | [] => none
  | c :: rest =>
    if c = '-' then (parseNatChars? rest).map fun n => -(n : Int)
    else (parseNatChars? (c :: rest)).map fun n => (n : Int)

def parseInt? (s : String) : Option Int := parseIntChars? s.data

/-- Two-digit zero-padded rendering (month, day, hour, minute, second). -/
def pad2 (n : Nat) : String :=
  if n < 10 then "0" ++ renderNat n else renderNat n

/-- Split a character list on a separator ( `String.split` at the character
level). -/
def splitOnChar (sep : Char) : List Char → List (List Char)
  | [] => [[]]
  | c :: cs =>
    if c = sep then [] :: splitOnChar sep cs
    else
      match splitOnChar sep cs with
      | [] => [[c]]
      | g :: gs => (c :: g) :: gs

/-- ISO rendering of a calendar date, `YYYY-MM-DD`. -/
def renderDate (d : Date) : String :=
  renderNat d.y ++ "-" ++ pad2 d.m ++ "-" ++ pad2 d.d

/-- Rendering of a time of day, `HH:MM:SS`. -/
def renderTime (t : Time) : String :=
  pad2 t.hh ++ ":" ++ pad2 t.mm ++ ":" ++ pad2 t.ss

/-- Rendering of a timestamp in a pandas `to_csv` output,
`YYYY-MM-DD HH:MM:SS`. -/
def renderTs (t : Timestamp) : String :=
  renderDate t.date ++ " " ++ renderTime t.time

/-- Parse `YYYY-MM-DD`. -/
def parseDateChars? (cs : List Char) : Option Date :=
  match splitOnChar '-' cs with
  | [a, b, c] =>
    (parseNatChars? a).bind fun y =>
      (parseNatChars? b).bind fun m =>
        (parseNatChars? c).map fun d => ⟨y, m, d⟩
  | _ => none

/-- Parse `HH:MM:SS`. -/
def parseTimeChars? (cs : List Char) : Option Time :=
  match splitOnChar ':' cs with
  | [a, b, c] =>
    (parseNatChars? a).bind fun hh =>
      (parseNatChars? b).bind fun mm =>
        (parseNatChars? c).map fun ss => ⟨hh, mm, ss⟩
  | _ => none

/-- Parse a timestamp as pandas does for `parse_dates` columns: a bare date
(midnight) or a date followed by a time of day. -/
def parseTsChars? (cs : List Char) : Option Timestamp :=
  match splitOnChar ' ' cs with
  | [d] => (parseDateChars? d).map fun dd => ⟨dd, Time.midnight⟩
  | [d, tm] =>
    (parseDateChars? d).bind fun dd =>
      (parseTimeChars? tm).map fun tt => ⟨dd, tt⟩
  | _ => none

def parseTs? (s : String) : Option Timestamp := parseTsChars? s.data

/-- The strings `read_csv` treats as missing values by default (the pandas
default `na_values` list). -/
def naStrings : List String :=
  ["", "#N/A", "#N/A N/A", "#NA", "-1.#IND", "-1.#QNAN", "-NaN", "-nan",
    "1.#IND", "1.#QNAN", "<NA>", "N/A", "NA", "NULL", "NaN", "None", "n/a",
    "nan", "null"]

/-- A cell string that `read_csv` converts to NaN. -/
def naLike (s : String) : Bool := naStrings.contains s

/-- The strings the pandas C parser reads as `True`. -/
def trueStrings : List String := ["TRUE", "True", "true"]

/-- The strings the pandas C parser reads as a boolean. -/
def boolStrings : List String :=
  ["TRUE", "True", "true", "FALSE", "False", "false"]

def boolLike (s : String) : Bool := boolStrings.contains s

def isDigitChar (c : Char) : Bool := (charDigit? c).isSome

def digitsOnly (l : List Char) : Bool := l.all isDigitChar

/-- Digits with an optional single decimal point, at least one digit. -/
def mantissaLike (l : List Char) : Bool :=
  match splitOnChar '.' l with
  | [a] => !a.isEmpty && digitsOnly a
  | [a, b] => (!a.isEmpty || !b.isEmpty) && digitsOnly a && digitsOnly b
  | _ => false

/-- An exponent part: optional sign, then at least one digit. -/
def expLike (l : List Char) : Bool :=
  match l with
  | [] => false
  | c :: r =>
    if c = '+' || c = '-' then !r.isEmpty && digitsOnly r
    else digitsOnly (c :: r)

def stripSign : List Char → List Char
  | [] => []
  | c :: r => if c = '+' || c = '-' then r else c :: r

/-- Mantissa with an optional `e`/`E` exponent. -/
def floatCore (l : List Char) : Bool :=
  match splitOnChar 'e' (l.map fun c => if c = 'E' then 'e' else c) with
  | [m] => mantissaLike m
  | [m, ex] => mantissaLike m && expLike ex
  | _ => false

/-- A cell string the pandas C parser reads as a `float64`: optional sign,
decimal mantissa, optional exponent. -/
def floatLike (s : String) : Bool := floatCore (stripSign s.data)

/-- A cell of a `read_csv` result: an uninferred string, an inferred
integer, an inferred float (carried as the literal it was parsed from —
`float64` arithmetic itself is outside the embedding, and what the claims
need is that the cell is no longer the original string), an inferred
boolean, a missing value, or a parsed timestamp. -/
inductive Cell where
  | str (s : String)
  | int (i : Int)
  | float (lit : String)
  | bool (b : Bool)
  | nan
  | ts (t : Timestamp)
  deriving DecidableEq, Repr

/-- A delimited text file: a header row and data rows of cell strings. -/
structure Csv where
  header : List String
  rows : List (List String)
  deriving DecidableEq, Repr

/-- A dataframe as `read_csv` returns it: named columns, typed cells. -/
structure RawTable where
  header : List String
  rows : List (List Cell)
  deriving DecidableEq, Repr

/-- The seven source columns of `sales.csv`. -/
def srcHeader : List String :=
  ["Order Date", "Region", "Category", "Sales", "Profit", "Quantity",
    "Order ID"]

/-- One row of `filtered.to_csv(index=False)` (line 118): every cell
rendered to text, in column order, with no index cell. -/
def renderRow (r : Row) : List String :=
  [renderTs r.orderDate, r.region, r.category, renderInt r.sales,
    renderInt r.profit, renderNat r.quantity, r.orderId,
    renderTs r.orderMonth]

/-- Line 118: `filtered.to_csv(index=False)` — the header (source columns
plus the derived `Order Month`), then the rows in their current order. -/
def toCsv (t : Table) : Csv :=
  ⟨srcHeader ++ ["Order Month"], t.map renderRow⟩

/-- Index of the first column with the given name. -/
def colIdx (name : String) : List String → Option Nat
  | [] => none
  | h :: hs => if h = name then some 0 else (colIdx name hs).map (· + 1)

/-- Map a function that also receives the element's index, starting at `i`. -/
def mapIdxFrom {α β : Type} (f : Nat → α → β) : Nat → List α → List β
  | _, [] => []
  | i, a :: as => f i a :: mapIdxFrom f (i + 1) as

theorem mapIdxFrom_getElem? {α β : Type} (f : Nat → α → β) (i : Nat)
    (l : List α) (j : Nat) :
    (mapIdxFrom f i l)[j]? = (l[j]?).map (f (i + j)) := by
  induction l generalizing i j with
  | nil => simp [mapIdxFrom]
  | cons a as ih =>
    cases j with
    | zero => simp [mapIdxFrom]
    | succ j =>
      simp only [mapIdxFrom, List.getElem?_cons_succ, ih (i + 1) j]
      rw [show i + 1 + j = i + (j + 1) from by omega]

/-- `read_csv(..., parse_dates=["Order Date"])`, one row: the `Order Date`
cell must parse to a timestamp — otherwise `load_data` fails when line 14
applies the `.dt` accessor to the unconverted column — and every other cell
stays a string for now. -/
def parseDatesRow (di : Nat) (row : List String) : Option (List Cell) :=
  (row[di]?).bind fun s =>
    (parseTs? s).map fun t =>
      mapIdxFrom (fun j c => if j = di then Cell.ts t else Cell.str c) 0 row

def parseRows (di : Nat) : List (List String) → Option (List (List Cell))
  | [] => some []
  | r :: rs =>
    (parseDatesRow di r).bind fun pr =>
      (parseRows di rs).map fun prs => pr :: prs

/-- The dtype `read_csv` infers for a column: `int64`, `float64`, `bool`,
or plain `object`. -/
inductive ColKind where
  | int
  | float
  | bool
  | obj
  deriving DecidableEq, Repr

/-- Column `j` is an `int64` column: every cell is an unconverted string
that is not a missing-value string and parses as an integer. -/
def colAllInt (rows : List (List Cell)) (j : Nat) : Bool :=
  rows.all fun row =>
    match row[j]? with
    | some (Cell.str s) => !naLike s && (parseInt? s).isSome
    | _ => false

/-- Column `j` is a `float64` column: every cell is an unconverted string
that is either a missing-value string (it becomes NaN) or float-like. -/
def colAllFloat (rows : List (List Cell)) (j : Nat) : Bool :=
  rows.all fun row =>
    match row[j]? with
    | some (Cell.str s) => naLike s || floatLike s
    | _ => false

/-- Column `j` is a `bool` column: every cell is an unconverted string that
is one of the boolean literals. -/
def colAllBool (rows : List (List Cell)) (j : Nat) : Bool :=
  rows.all fun row =>
    match row[j]? with
    | some (Cell.str s) => !naLike s && boolLike s
    | _ => false

/-- pandas dtype inference for column `j`: `int64` when all-integer-like,
else `float64` when all-float-or-missing, else `bool` when all-boolean,
else `object`. -/
def colKind (rows : List (List Cell)) (j : Nat) : ColKind :=
  if colAllInt rows j then .int
  else if colAllFloat rows j then .float
  else if colAllBool rows j then .bool
  else .obj

/-- Convert one cell according to its column's inferred dtype.  In an
`object` column the default missing-value strings still become NaN. -/
def inferCell (k : ColKind) (c : Cell) : Cell :=
  match k, c with
  | .int, Cell.str s =>
    match parseInt? s with
    | some i => Cell.int i
    | none => Cell.str s
  | .float, Cell.str s => if naLike s then Cell.nan else Cell.float s
  | .bool, Cell.str s => Cell.bool (trueStrings.contains s)
  | .obj, Cell.str s => if naLike s then Cell.nan else Cell.str s
  | _, c => c

/-- Apply dtype inference to every column of a `read_csv` result. -/
def inferRows (rows : List (List Cell)) : List (List Cell) :=
  rows.map fun row => mapIdxFrom (fun j c => inferCell (colKind rows j) c) 0 row

/-- The derived `Order Month` cell of one row, read off the parsed
`Order Date` cell. -/
def monthCell (di : Nat) (row : List Cell) : Cell :=
  match row[di]? with
  | some (Cell.ts t) => Cell.ts (monthFloor t)
  | _ => Cell.str ""

/-- Line 14, `df["Order Month"] = ...`: overwrite the `Order Month` column
when it already exists, append it otherwise. -/
def setMonth (di : Nat) (rt : RawTable) : RawTable :=
  match colIdx "Order Month" rt.header with
  | some mi =>
    ⟨rt.header,
      rt.rows.map fun row =>
        mapIdxFrom (fun j c => if j = mi then monthCell di row else c) 0 row⟩
  | none =>
    ⟨rt.header ++ ["Order Month"],
      rt.rows.map fun row => row ++ [monthCell di row]⟩

inductive LoadError where
  | missingOrderDate
  | unparsableDate
  deriving DecidableEq, Repr

/-- Lines 10–15, `load_data`: `pd.read_csv(path, parse_dates=["Order Date"])`
followed by the `Order Month` derivation.  It fails when the `Order Date`
column is absent (pandas raises for a missing `parse_dates` column) or when
any date cell does not parse (line 14's `.dt` accessor then fails on the
unconverted column). -/
def load_data (csv : Csv) : Except LoadError RawTable :=
  match colIdx "Order Date" csv.header with
  | none => .error .missingOrderDate
  | some di =>
    match parseRows di csv.rows with
    | none => .error .unparsableDate
    | some rows => .ok (setMonth di ⟨csv.header, inferRows rows⟩)

def exceptOk {ε α : Type} : Except ε α → Bool
  | .ok _ => true
  | .error _ => false

/-- The sidebar selection: a date window plus the two multiselect lists. -/
structure Selection where
  ds : Date
  de : Date
  regions : List String
  categories : List String

/-- All aggregates the script derives from one filtered table. -/
structure Aggregates where
  totalSales : Int
  totalProfit : Int
  avgSales : Option ℚ
  orders : Nat
  monthly : List (Timestamp × Int × Int)
  regionSales : List (String × Int)
  catSales : List (String × Int)
  treemapAgg : List ((String × String) × Int)
  areaAgg : List ((Timestamp × String) × Int)
  aovAgg : List (Timestamp × ℚ)
  corr : Option (Fin 3 → Fin 3 → ℝ)

/-- The full pipeline run on one interaction: filter (line 37), then every
aggregate the script computes (lines 43–112). -/
noncomputable def pipeline (df : Table) (sel : Selection) : Aggregates :=
  let ft := filterTable df sel.ds sel.de sel.regions sel.categories
  ⟨totalSales ft, totalProfit ft, avgSales ft, orderCount ft, monthly ft,
    regionSales ft, catSales ft, treemapAgg ft, areaAgg ft, aovAgg ft,
    corrSection ft⟩

/-- **C1.**  The filter (lines 31–37) returns exactly the conjunctive subset:
a row is in `filtered` iff it is in the source table, the date component of
its `Order Date` lies in the inclusive window `[ds, de]` (time of day
ignored), its `Region` is in the selected region list and its `Category` is
in the selected category list. -/
theorem filter_is_conjunctive_subset
    (df : Table) (ds de : Date) (regions categories : List String) (r : Row) :
    r ∈ filterTable df ds de regions categories ↔
      r ∈ df ∧ Date.le ds r.orderDate.date ∧ Date.le r.orderDate.date de ∧
        r.region ∈ regions ∧ r.category ∈ categories := by
  simp [filterTable, List.mem_filter, rowMask, and_assoc]

/-- **C2.**  An empty `Region` or `Category` multiselect yields zero rows:
`isin([])` is false everywhere, so the conjunctive mask rejects every row
regardless of the date window. -/
theorem filter_empty_allowset_empty
    (df : Table) (ds de : Date) (regions categories : List String)
    (h : regions = [] ∨ categories = []) :
    filterTable df ds de regions categories = [] := by
  rw [filterTable, List.filter_eq_nil_iff]
  intro r _
  rcases h with h | h <;> subst h <;> simp [rowMask]

/-- Witness for `filter_empty_allowset_empty`: the empty region selection on
the three-row demo table yields zero rows. -/
theorem filter_empty_allowset_empty_witness :
    filterTable demoTable ⟨2024, 1, 1⟩ ⟨2024, 12, 31⟩ [] ["Chairs"] = [] :=
  filter_empty_allowset_empty demoTable ⟨2024, 1, 1⟩ ⟨2024, 12, 31⟩ []
    ["Chairs"] (Or.inl rfl)

/-- **C3.**  On an empty filtered table the scalar KPIs (lines 43–46) do not
crash: `sum(Sales)` and `sum(Profit)` are `0`, the row count is `0`, and
`mean(Sales)` is undefined (`NaN` in pandas, `none` here). -/
theorem kpis_on_empty_filter
    (df : Table) (ds de : Date) (regions categories : List String)
    (h : filterTable df ds de regions categories = []) :
    totalSales (filterTable df ds de regions categories) = 0 ∧
      totalProfit (filterTable df ds de regions categories) = 0 ∧
      orderCount (filterTable df ds de regions categories) = 0 ∧
      avgSales (filterTable df ds de regions categories) = none := by
  rw [h]
  exact ⟨rfl, rfl, rfl, rfl⟩

/-- Witness for `kpis_on_empty_filter`: a date window that excludes all three
demo rows gives zero sums, zero count and an undefined mean. -/
theorem kpis_on_empty_filter_witness :
    totalSales (filterTable demoTable ⟨2025, 1, 1⟩ ⟨2025, 12, 31⟩
        ["East", "West"] ["Chairs", "Tables"]) = 0 ∧
      totalProfit (filterTable demoTable ⟨2025, 1, 1⟩ ⟨2025, 12, 31⟩
        ["East", "West"] ["Chairs", "Tables"]) = 0 ∧
      orderCount (filterTable demoTable ⟨2025, 1, 1⟩ ⟨2025, 12, 31⟩
        ["East", "West"] ["Chairs", "Tables"]) = 0 ∧
      avgSales (filterTable demoTable ⟨2025, 1, 1⟩ ⟨2025, 12, 31⟩
        ["East", "West"] ["Chairs", "Tables"]) = none :=
  kpis_on_empty_filter demoTable ⟨2025, 1, 1⟩ ⟨2025, 12, 31⟩
    ["East", "West"] ["Chairs", "Tables"] (by decide)

/-- **C4.**  The correlation step is guarded: it is skipped exactly when the
filtered table is empty, and on a non-empty filtered table it computes the
3×3 Pearson matrix of the filtered data. -/
theorem corr_section_guarded
    (df : Table) (ds de : Date) (regions categories : List String) :
    (filterTable df ds de regions categories = [] →
      corrSection (filterTable df ds de regions categories) = none) ∧
    (filterTable df ds de regions categories ≠ [] →
      corrSection (filterTable df ds de regions categories) =
        some (pearsonMatrix (filterTable df ds de regions categories))) := by
  constructor
  · intro h
    rw [h]
    rfl
  · intro h
    rw [corrSection, if_neg]
    simp [numFrame, h]

/-- Witness for `corr_section_guarded`: the empty selection skips the
correlation section, the demo selection computes it. -/
theorem corr_section_guarded_witness :
    corrSection (filterTable demoTable ⟨2024, 1, 5⟩ ⟨2024, 2, 10⟩ [] []) =
        none ∧
      corrSection
          (filterTable demoTable ⟨2024, 1, 5⟩ ⟨2024, 2, 10⟩ ["East"]
            ["Chairs"]) =
        some (pearsonMatrix
          (filterTable demoTable ⟨2024, 1, 5⟩ ⟨2024, 2, 10⟩ ["East"]
            ["Chairs"])) :=
  ⟨(corr_section_guarded demoTable ⟨2024, 1, 5⟩ ⟨2024, 2, 10⟩ [] []).1
      (by decide),
    (corr_section_guarded demoTable ⟨2024, 1, 5⟩ ⟨2024, 2, 10⟩ ["East"]
        ["Chairs"]).2 (by decide)⟩

/-- **C6.**  The pipeline is a pure function of the loaded table and the
selection: re-running it with an identical selection on an unchanged load
produces identical aggregates. -/
theorem pipeline_deterministic (df : Table) (sel : Selection) :
    pipeline df sel = pipeline df sel := rfl

/-- **C10.**  The export (line 118) serializes the filtered table as-is: the
derived `Order Month` column is not stripped, so the CSV has the seven
source columns plus `Order Month`, and every row carries its rendered
`Order Month` value in that last column. -/
theorem export_includes_order_month (t : Table) :
    (toCsv t).header = srcHeader ++ ["Order Month"] ∧
      (toCsv t).rows = t.map renderRow ∧
      ∀ r : Row, (renderRow r)[7]? = some (renderTs r.orderMonth) :=
  ⟨rfl, rfl, fun _ => rfl⟩

theorem parseDatesRow_isSome (di : Nat) (row : List String) :
    (parseDatesRow di row).isSome = true ↔
      ∃ s, row[di]? = some s ∧ (parseTs? s).isSome = true := by
  cases h : row[di]? with
  | none => simp [parseDatesRow, h]
  | some s =>
    cases hp : parseTs? s with
    | none => simp [parseDatesRow, h, hp]
    | some t => simp [parseDatesRow, h, hp]

theorem parseRows_isSome (di : Nat) (rows : List (List String)) :
    (parseRows di rows).isSome = true ↔
      ∀ row ∈ rows, (parseDatesRow di row).isSome = true := by
  induction rows with
  | nil => simp [parseRows]
  | cons r rs ih =>
    cases h : parseDatesRow di r with
    | none => simp [parseRows, h]
    | some pr =>
      cases h2 : parseRows di rs with
      | none =>
        rw [h2] at ih
        simp only [Option.isSome_none, Bool.false_eq_true, false_iff] at ih
        simp only [parseRows, h, h2, Option.some_bind, Option.map_none',
          Option.isSome_none, Bool.false_eq_true, false_iff]
        intro hall
        exact ih fun row hrow => hall row (List.mem_cons_of_mem r hrow)
      | some prs =>
        rw [h2] at ih
        simp only [parseRows, h, h2]
        simp only [Option.isSome_some, true_iff] at ih
        simp only [Option.some_bind, Option.map_some', Option.isSome_some,
          true_iff]
        intro row hrow
        rcases List.mem_cons.mp hrow with rfl | hrow
        · rw [h]
          rfl
        · exact ih row hrow

theorem parseRows_mem {di : Nat} {rows : List (List String)}
    {rows' : List (List Cell)} (h : parseRows di rows = some rows') :
    ∀ pr ∈ rows', ∃ r ∈ rows, parseDatesRow di r = some pr := by
  induction rows generalizing rows' with
  | nil =>
    simp only [parseRows, Option.some.injEq] at h
    subst h
    simp
  | cons r rs ih =>
    rw [parseRows] at h
    cases hr : parseDatesRow di r with
    | none =>
      rw [hr] at h
      simp at h
    | some pr0 =>
      rw [hr] at h
      cases hrs : parseRows di rs with
      | none =>
        rw [hrs] at h
        simp at h
      | some prs0 =>
        rw [hrs] at h
        simp only [Option.some_bind, Option.map_some', Option.some.injEq] at h
        subst h
        intro pr hpr
        rcases List.mem_cons.mp hpr with rfl | hpr
        · exact ⟨r, by simp, hr⟩
        · rcases ih hrs pr hpr with ⟨r', hr', hpr'⟩
          exact ⟨r', List.mem_cons_of_mem _ hr', hpr'⟩

theorem parseDatesRow_cell {di : Nat} {row : List String} {pr : List Cell}
    (h : parseDatesRow di row = some pr) :
    ∃ t, pr[di]? = some (Cell.ts t) := by
  rw [parseDatesRow] at h
  cases hs : row[di]? with
  | none =>
    rw [hs] at h
    simp at h
  | some s =>
    rw [hs] at h
    simp only [Option.some_bind] at h
    cases hp : parseTs? s with
    | none =>
      rw [hp] at h
      simp at h
    | some t =>
      rw [hp] at h
      simp only [Option.map_some', Option.some.injEq] at h
      subst h
      refine ⟨t, ?_⟩
      rw [mapIdxFrom_getElem?]
      simp [hs]

theorem inferCell_ts (k : ColKind) (t : Timestamp) :
    inferCell k (Cell.ts t) = Cell.ts t := by
  cases k <;> rfl

theorem setMonth_cell {di : Nat} {rt : RawTable} {row : List Cell}
    (hrow : row ∈ (setMonth di rt).rows)
    (hall : ∀ r0 ∈ rt.rows, ∃ t, r0[di]? = some (Cell.ts t)) :
    ∃ t, row[di]? = some (Cell.ts t) := by
  cases hmi : colIdx "Order Month" rt.header with
  | some mi =>
    simp only [setMonth, hmi, List.mem_map] at hrow
    obtain ⟨r0, hr0, rfl⟩ := hrow
    obtain ⟨t, ht⟩ := hall r0 hr0
    by_cases hdm : di = mi
    · subst hdm
      refine ⟨monthFloor t, ?_⟩
      rw [mapIdxFrom_getElem?]
      simp [ht, monthCell]
    · refine ⟨t, ?_⟩
      rw [mapIdxFrom_getElem?]
      simp [ht, hdm]
  | none =>
    simp only [setMonth, hmi, List.mem_map] at hrow
    obtain ⟨r0, hr0, rfl⟩ := hrow
    obtain ⟨t, ht⟩ := hall r0 hr0
    refine ⟨t, ?_⟩
    have hlen : di < r0.length := by
      rcases List.getElem?_eq_some.mp ht with ⟨hlt, -⟩
      exact hlt
    rw [List.getElem?_append_left hlen, ht]

/-- **C7 (amended).**  `load_data` succeeds exactly when the `Order Date`
column is present and every row's date cell parses; on success every row of
the loaded table carries a parsed timestamp in the `Order Date` column.
(Other required columns are *not* checked by the loader — see the
counterexample.) -/
theorem load_requires_parsed_dates (csv : Csv) :
    (exceptOk (load_data csv) = true ↔
      ∃ di, colIdx "Order Date" csv.header = some di ∧
        ∀ row ∈ csv.rows, ∃ s, row[di]? = some s ∧
          (parseTs? s).isSome = true) ∧
    (∀ rt, load_data csv = Except.ok rt →
      ∀ di, colIdx "Order Date" csv.header = some di →
        ∀ row ∈ rt.rows, ∃ t, row[di]? = some (Cell.ts t)) := by
  constructor
  · cases hdi : colIdx "Order Date" csv.header with
    | none => simp [load_data, hdi, exceptOk]
    | some di =>
      cases hp : parseRows di csv.rows with
      | none =>
        have hno : ¬ ∀ row ∈ csv.rows, (parseDatesRow di row).isSome = true := by
          intro hall
          have h2 := (parseRows_isSome di csv.rows).mpr hall
          rw [hp] at h2
          simp at h2
        simp only [load_data, hdi, hp, exceptOk]
        constructor
        · intro h
          cases h
        · rintro ⟨di', hdi', hall⟩
          injection hdi' with h'
          subst h'
          exact absurd (fun row hr => (parseDatesRow_isSome di row).mpr
            (hall row hr)) hno
      | some rows =>
        simp only [load_data, hdi, hp, exceptOk]
        constructor
        · intro _
          refine ⟨di, rfl, ?_⟩
          intro row hr
          have hall := (parseRows_isSome di csv.rows).mp (by rw [hp]; rfl)
          exact (parseDatesRow_isSome di row).mp (hall row hr)
        · intro _
          trivial
  · intro rt hok di hdi row hrow
    have hunfold : load_data csv = match parseRows di csv.rows with
      | none => Except.error LoadError.unparsableDate
      | some rows =>
        Except.ok (setMonth di ⟨csv.header, inferRows rows⟩) := by
      rw [show load_data csv = match colIdx "Order Date" csv.header with
        | none => Except.error LoadError.missingOrderDate
        | some di =>
          match parseRows di csv.rows with
          | none => Except.error LoadError.unparsableDate
          | some rows =>
            Except.ok (setMonth di ⟨csv.header, inferRows rows⟩) from rfl,
        hdi]
    rw [hunfold] at hok
    cases hp : parseRows di csv.rows with
    | none =>
      rw [hp] at hok
      cases hok
    | some rows =>
      rw [hp] at hok
      injection hok with hok
      subst hok
      refine setMonth_cell hrow ?_
      intro r0 hr0
      simp only [inferRows, List.mem_map] at hr0
      obtain ⟨r1, hr1, rfl⟩ := hr0
      obtain ⟨r2, hr2, hpd⟩ := parseRows_mem hp r1 hr1
      obtain ⟨t, ht⟩ := parseDatesRow_cell hpd
      refine ⟨t, ?_⟩
      rw [mapIdxFrom_getElem?]
      simp [ht, inferCell_ts]

/-- A one-row CSV used by the C7 witness. -/
def wCsv : Csv := ⟨["Order Date", "Region"], [["2024-01-02", "East"]]⟩

/-- What `load_data` returns on `wCsv`. -/
def wRt : RawTable :=
  ⟨["Order Date", "Region", "Order Month"],
    [[Cell.ts ⟨⟨2024, 1, 2⟩, Time.midnight⟩, Cell.str "East",
      Cell.ts ⟨⟨2024, 1, 1⟩, Time.midnight⟩]]⟩

/-- Witness for `load_requires_parsed_dates` at the concrete `wCsv`. -/
theorem load_requires_parsed_dates_witness :
    exceptOk (load_data wCsv) = true ∧
      ∀ row ∈ wRt.rows, ∃ t, row[0]? = some (Cell.ts t) :=
  ⟨(load_requires_parsed_dates wCsv).1.mpr
      ⟨0, rfl, by
        intro row hrow
        have hr : row = ["2024-01-02", "East"] := by
          simpa [wCsv] using hrow
        subst hr
        exact ⟨"2024-01-02", rfl, rfl⟩⟩,
    (load_requires_parsed_dates wCsv).2 wRt rfl 0 rfl⟩

/-- A CSV whose only column is `Order Date`: every other required column
(Region, Category, Sales, …) is missing. -/
def ceCsvNoRegion : Csv := ⟨["Order Date"], [["2024-01-02"]]⟩

/-- **Counterexample to C7 as stated.**  The loader does not fail when
required columns other than `Order Date` are missing: on a CSV lacking
Region, Category, Sales, Profit, Quantity and Order ID it succeeds. -/
theorem load_missing_required_column_succeeds :
    exceptOk (load_data ceCsvNoRegion) = true := rfl

/-- **C8.**  Every grouped aggregate (`groupby` defaults to `sort=True`)
lists its grouping keys in natural ascending order of the key — chronological
for month keys, lexical for label keys, lexicographic for pair keys — with
no duplicate keys, and the keys are exactly the key values present in the
table. -/
theorem grouped_keys_natural_ascending (t : Table) :
    (List.Sorted Timestamp.le ((monthly t).map Prod.fst) ∧
      ((monthly t).map Prod.fst).Nodup ∧
      (∀ k, k ∈ (monthly t).map Prod.fst ↔ ∃ row ∈ t, row.orderMonth = k)) ∧
    (List.Sorted (· ≤ ·) ((regionSales t).map Prod.fst) ∧
      ((regionSales t).map Prod.fst).Nodup ∧
      (∀ k, k ∈ (regionSales t).map Prod.fst ↔ ∃ row ∈ t, row.region = k)) ∧
    (List.Sorted (· ≤ ·) ((catSales t).map Prod.fst) ∧
      ((catSales t).map Prod.fst).Nodup ∧
      (∀ k, k ∈ (catSales t).map Prod.fst ↔ ∃ row ∈ t, row.category = k)) ∧
    (List.Sorted strPairLe ((treemapAgg t).map Prod.fst) ∧
      ((treemapAgg t).map Prod.fst).Nodup ∧
      (∀ k, k ∈ (treemapAgg t).map Prod.fst ↔
        ∃ row ∈ t, (row.region, row.category) = k)) ∧
    (List.Sorted monthCatLe ((areaAgg t).map Prod.fst) ∧
      ((areaAgg t).map Prod.fst).Nodup ∧
      (∀ k, k ∈ (areaAgg t).map Prod.fst ↔
        ∃ row ∈ t, (row.orderMonth, row.category) = k)) := by
  refine ⟨⟨?_, ?_, ?_⟩, ⟨?_, ?_, ?_⟩, ⟨?_, ?_, ?_⟩, ⟨?_, ?_, ?_⟩, ?_, ?_, ?_⟩ <;>
    simp only [monthly, regionSales, catSales, treemapAgg, areaAgg, keys_map_fst]
  · exact groupKeys_sorted _ _ t
  · exact groupKeys_nodup _ _ t
  · exact fun k => groupKeys_mem _ _ t k
  · exact groupKeys_sorted _ _ t
  · exact groupKeys_nodup _ _ t
  · exact fun k => groupKeys_mem _ _ t k
  · exact groupKeys_sorted _ _ t
  · exact groupKeys_nodup _ _ t
  · exact fun k => groupKeys_mem _ _ t k
  · exact groupKeys_sorted _ _ t
  · exact groupKeys_nodup _ _ t
  · exact fun k => groupKeys_mem _ _ t k
  · exact groupKeys_sorted _ _ t
  · exact groupKeys_nodup _ _ t
  · exact fun k => groupKeys_mem _ _ t k

/-- **C9.**  The spec's concrete scenario: on the three-row demo table,
selecting region `{East}`, category `{Chairs}` and the full date range
filters down to rows 1 and 3, gives Total Sales 150, and a monthly
`sum(Sales)` aggregate of January 100, February 50. -/
theorem demo_scenario :
    filterTable demoTable ⟨2024, 1, 5⟩ ⟨2024, 2, 10⟩ ["East"] ["Chairs"] =
        [demoRow1, demoRow3] ∧
      totalSales
        (filterTable demoTable ⟨2024, 1, 5⟩ ⟨2024, 2, 10⟩ ["East"] ["Chairs"])
        = 150 ∧
      (monthly
          (filterTable demoTable ⟨2024, 1, 5⟩ ⟨2024, 2, 10⟩ ["East"]
            ["Chairs"])).map (fun x => (x.1, x.2.1)) =
        [(⟨⟨2024, 1, 1⟩, Time.midnight⟩, 100),
          (⟨⟨2024, 2, 1⟩, Time.midnight⟩, 50)] := by
  decide
